import Mathlib

/-!
Shallow embedding of the APIException library (stdOWL/APIException).

The Python sources embedded here are:
- `custom_enum/enums.py` : `ExceptionStatus`, `BaseExceptionCode`, `ExceptionCode`
- `api_exception/exception.py` : `DEFAULT_HTTP_CODES`, `set_default_http_codes`,
  `APIException.__init__`, `to_response`, `to_rfc7807_response`, `to_response_model`
- `api_exception/response_model.py` : `ResponseModel`
- `api_exception/rfc7807_model.py` : `RFC7807ResponseModel`
- `api_exception/__init__.py` : `register_exception_handlers` internals
  (`_collect_headers`, `_resolve_response_headers_param`, `_response_headers`,
  `api_exception_handler`, `validation_exception_handler`,
  `fallback_exception_middleware`, the `openapi` schema patch)

Python dictionaries are modelled as association lists with insertion-order
semantics (`dset` keeps the position of an existing key and appends new keys
at the end, exactly like CPython dicts).  JSON-serializable Python values are
modelled by the inductive `Json` type.  Python `int` is `Int` (an int is falsy
iff it equals 0); Python `str` is `String`.
-/

/-- JSON-like Python value (the payloads that flow through the library). -/
inductive Json where
  | null
  | bool (b : Bool)
  | num (n : Int)
  | str (s : String)
  | arr (elems : List Json)
  | obj (fields : List (String × Json))

/-- Python `dict.get(k)` / `d[k]` lookup on an insertion-ordered dict. -/
def dget {K V : Type} [DecidableEq K] : List (K × V) → K → Option V
  | [], _ => none
  | (k', v) :: t, k => if k' = k then some v else dget t k

/-- Python `d[k] = v`: replace the first binding of `k` in place, or append
a new binding at the end (CPython dict insertion-order semantics). -/
def dset {K V : Type} [DecidableEq K] : List (K × V) → K → V → List (K × V)
  | [], k, v => [(k, v)]
  | (k', v') :: t, k, v => if k' = k then (k, v) :: t else (k', v') :: dset t k v

/-- Python `d.update(other)`: `d[k] = v` for every pair of `other`, in order. -/
def dupdate {K V : Type} [DecidableEq K] (l upd : List (K × V)) : List (K × V) :=
  upd.foldl (fun acc p => dset acc p.1 p.2) l

/-- `custom_enum/enums.py`: `class ExceptionStatus(str, Enum)`. -/
inductive ExceptionStatus where
  | SUCCESS
  | WARNING
  | FAIL
deriving DecidableEq

/-- The `str` value of an `ExceptionStatus` member (`.value` in Python). -/
def ExceptionStatus.value : ExceptionStatus → String
  | .SUCCESS => "SUCCESS"
  | .WARNING => "WARNING"
  | .FAIL => "FAIL"

/-- `custom_enum/enums.py`: a `BaseExceptionCode` enum member is backed by a
tuple of 2–5 positional strings (`self.value`).  Modelled as the tuple itself. -/
structure BaseExceptionCode where
  value : List String
deriving DecidableEq

/-- `BaseExceptionCode.error_code` property: `self.value[0]`.
(Python raises `IndexError` on a tuple shorter than 1; descriptors have ≥ 2
entries by contract, under which `getD 0` agrees with `self.value[0]`.) -/
def BaseExceptionCode.error_code (c : BaseExceptionCode) : String :=
  c.value.getD 0 ""

/-- `BaseExceptionCode.message` property: `self.value[1]` (tuple length ≥ 2
by contract, under which `getD 1` agrees with `self.value[1]`). -/
def BaseExceptionCode.message (c : BaseExceptionCode) : String :=
  c.value.getD 1 ""

/-- `BaseExceptionCode.description` property:
`self.value[2] if len(self.value) > 2 else ""` — exactly `getD 2 ""`. -/
def BaseExceptionCode.description (c : BaseExceptionCode) : String :=
  c.value.getD 2 ""

/-- `BaseExceptionCode.rfc7807_type` property:
`self.value[3] if len(self.value) > 3 else ""`. -/
def BaseExceptionCode.rfc7807_type (c : BaseExceptionCode) : String :=
  c.value.getD 3 ""

/-- `BaseExceptionCode.rfc7807_instance` property:
`self.value[4] if len(self.value) > 4 else ""`. -/
def BaseExceptionCode.rfc7807_instance (c : BaseExceptionCode) : String :=
  c.value.getD 4 ""

/-- `ExceptionCode.AUTH_LOGIN_FAILED` from `custom_enum/enums.py`. -/
def ExceptionCode.AUTH_LOGIN_FAILED : BaseExceptionCode :=
  ⟨["AUTH-1000", "Incorrect username and password.",
    "Failed authentication attempt.",
    "https://example.com/problems/authentication-error", "/login"]⟩

/-- `ExceptionCode.EMAIL_ALREADY_TAKEN` from `custom_enum/enums.py`. -/
def ExceptionCode.EMAIL_ALREADY_TAKEN : BaseExceptionCode :=
  ⟨["RGST-1000", "An account with this email already exists.",
    "Duplicate email during registration.",
    "https://example.com/problems/duplicate-registration", "/register"]⟩

/-- `ExceptionCode.INTERNAL_SERVER_ERROR` from `custom_enum/enums.py`. -/
def ExceptionCode.INTERNAL_SERVER_ERROR : BaseExceptionCode :=
  ⟨["ISE-500", "Internal Server Error",
    "An unexpected error occurred. Please try again later.",
    "https://example.com/problems/internal-server-error", "/"]⟩

/-- `ExceptionCode.VALIDATION_ERROR` from `custom_enum/enums.py`. -/
def ExceptionCode.VALIDATION_ERROR : BaseExceptionCode :=
  ⟨["VAL-422", "Validation Error",
    "Request validation failed. Please check the submitted fields.",
    "https://example.com/problems/validation-error", "/"]⟩

/-- `ResponseFormat` enum from `custom_enum/enums.py`. -/
inductive ResponseFormat where
  | RESPONSE_MODEL
  | RESPONSE_DICTIONARY
  | RFC7807
deriving DecidableEq

/-- `api_exception/exception.py`: the initial `DEFAULT_HTTP_CODES` dict. -/
def DEFAULT_HTTP_CODES : List (ExceptionStatus × Int) :=
  [(.SUCCESS, 200), (.WARNING, 400), (.FAIL, 400)]

/-- `set_default_http_codes(new_map)`: `DEFAULT_HTTP_CODES.update(new_map)`.
Modelled functionally: the current map is an explicit argument. -/
def set_default_http_codes (cur new_map : List (ExceptionStatus × Int)) :
    List (ExceptionStatus × Int) :=
  dupdate cur new_map

/-- Extra log payload (`log_message` can be a `str` or a `dict` in Python). -/
inductive LogMessage where
  | ofStr (s : String)
  | ofDict (d : List (String × Json))

/-- Exception-carried headers: Python lets callers smuggle `None` keys/values
into the `headers` dict, so keys and values are `Option String`
(`none` models Python `None`). -/
abbrev ExcHeaders := List (Option String × Option String)

/-- `api_exception/exception.py`: the attributes set by `APIException.__init__`. -/
structure APIException where
  message : String
  error_code : String
  description : String
  status : ExceptionStatus
  http_status_code : Int
  log_exception : Bool
  log_message : Option LogMessage
  rfc7807_type : String
  rfc7807_instance : String
  headers : ExcHeaders

/-- `APIException.__init__`, with the global `DEFAULT_HTTP_CODES` dict passed
explicitly as `code_map`.  Python defaults: `http_status_code=400`,
`status=FAIL`, `message=None`, `description=None`, `log_exception=True`,
`log_message=None`, `headers=None`.  Line by line:
`self.message = message if message is not None else error_code.message`;
`self.description` likewise;
`self.http_status_code = http_status_code or DEFAULT_HTTP_CODES.get(status, 400)`
(an `int` is falsy iff it is 0);
`self.headers = headers or {}` (both `None` and `{}` yield `{}`). -/
def APIException.init (code_map : List (ExceptionStatus × Int))
    (error_code : BaseExceptionCode) (http_status_code : Int)
    (status : ExceptionStatus) (message : Option String)
    (description : Option String) (log_exception : Bool)
    (log_message : Option LogMessage) (headers : Option ExcHeaders) :
    APIException :=
  { message := match message with
      | some m => m
      | none => error_code.message
    error_code := error_code.error_code
    description := match description with
      | some d => d
      | none => error_code.description
    status := status
    http_status_code :=
      if http_status_code ≠ 0 then http_status_code
      else (dget code_map status).getD 400
    log_exception := log_exception
    log_message := log_message
    rfc7807_type := error_code.rfc7807_type
    rfc7807_instance := error_code.rfc7807_instance
    headers := match headers with
      | some h => h
      | none => [] }

/-- `api_exception/response_model.py`: the `ResponseModel` pydantic model
(fields in declaration order: data, status, message, error_code, description). -/
structure ResponseModel where
  data : Option Json
  status : ExceptionStatus
  message : String
  error_code : Option String
  description : Option String

/-- `api_exception/rfc7807_model.py`: the `RFC7807ResponseModel` pydantic model
(fields in declaration order: type, title, status, detail, instance).
`instance` is a Lean keyword, hence the field name `instance_`. -/
structure RFC7807ResponseModel where
  type : Option String
  title : String
  status : Int
  detail : Option String
  instance_ : Option String

/-- `APIException.to_response`: the RAW dict
`{data: None, error_code, status: status.value, message, description}`
(keys in source order). -/
def APIException.to_response (e : APIException) : List (String × Json) :=
  [("data", Json.null),
   ("error_code", Json.str e.error_code),
   ("status", Json.str e.status.value),
   ("message", Json.str e.message),
   ("description", Json.str e.description)]

/-- `APIException.to_rfc7807_response`. -/
def APIException.to_rfc7807_response (e : APIException) : RFC7807ResponseModel :=
  { type := some e.rfc7807_type
    instance_ := some e.rfc7807_instance
    title := e.message
    status := e.http_status_code
    detail := some e.description }

/-- `APIException.to_response_model(data=None)`. -/
def APIException.to_response_model (e : APIException) (data : Option Json) :
    ResponseModel :=
  { data := data
    status := e.status
    message := e.message
    error_code := some e.error_code
    description := some e.description }

/-- `None`-preserving JSON rendering of an optional string field. -/
def jsonOfOpt : Option String → Json
  | some s => Json.str s
  | none => Json.null

/-- `ResponseModel.model_dump(exclude_none=False)` as a JSON object. -/
def ResponseModel.dump (m : ResponseModel) : Json :=
  .obj [("data", (m.data).getD Json.null),
        ("status", Json.str m.status.value),
        ("message", Json.str m.message),
        ("error_code", jsonOfOpt m.error_code),
        ("description", jsonOfOpt m.description)]

/-- `RFC7807ResponseModel.model_dump(exclude_none=False)` as a JSON object. -/
def RFC7807ResponseModel.dump (m : RFC7807ResponseModel) : Json :=
  .obj [("type", jsonOfOpt m.type),
        ("title", Json.str m.title),
        ("status", Json.num m.status),
        ("detail", jsonOfOpt m.detail),
        ("instance", jsonOfOpt m.instance_)]

/-- The slice of a Starlette `Request` the handlers read.  Header names are
stored lower-cased (Starlette lower-cases them), and lookup is by exact key.
`client_ip = none` models `request.client is None`. -/
structure Request where
  headers : List (String × String)
  path : String
  method : String
  client_ip : Option String
  http_version : Option String

/-- `_collect_headers(req, keys)` from `register_exception_handlers`:
`for k in keys: v = req.headers.get(k); if v: out[k] = v`
(an empty-string header value is falsy and is dropped). -/
def collect_headers (req : Request) (keys : List String) :
    List (String × String) :=
  keys.foldl (fun out k =>
    match dget req.headers k with
    | some v => if v ≠ "" then dset out k v else out
    | none => out) []

/-- Python `s.strip()` on the character list: drop leading and trailing
whitespace. -/
def pyStripChars (l : List Char) : List Char :=
  ((l.dropWhile Char.isWhitespace).reverse.dropWhile Char.isWhitespace).reverse

/-- Python `s.strip()`. -/
def pyStrip (s : String) : String :=
  ⟨pyStripChars s.data⟩

/-- `k.strip().lower()` normalization used by `_validate_header_keys`
(the library only uses ASCII header names, where `Char.toLower` agrees with
Python `str.lower`). -/
def pyNormKey (s : String) : String :=
  ⟨(pyStripChars s.data).map Char.toLower⟩

/-- `_validate_header_keys(keys)`: raises `ValueError` when a key is not a
non-blank string (modelled as `none`); otherwise returns the keys trimmed and
lower-cased, in order.  (All keys are strings in this model, so only the
blank check can fail.) -/
def validate_header_keys (keys : List String) : Option (List String) :=
  if keys.all (fun k => pyStrip k ≠ "") then some (keys.map pyNormKey) else none

/-- The `response_headers` argument of `register_exception_handlers`:
`bool | tuple[str, ...] | None`. -/
inductive RespHeadersParam where
  | ofBool (b : Bool)
  | ofList (l : List String)
  | noneV

/-- `_resolve_response_headers_param(value)`:
`True` → the default triple; `False`, `None` or an empty tuple (falsy) → `()`;
otherwise `_validate_header_keys(value)` (whose `ValueError` is `none` here). -/
def resolve_response_headers_param : RespHeadersParam → Option (List String)
  | .ofBool true => some ["x-request-id", "x-correlation-id", "x-amzn-trace-id"]
  | .ofBool false => some []
  | .noneV => some []
  | .ofList l => if l = [] then some [] else validate_header_keys l

/-- `_response_headers(req)` given the resolved `_response_header_keys`:
`{}` when no keys are configured, else `_collect_headers(req, keys)`. -/
def response_headers_fn (resolved_keys : List String) (req : Request) :
    List (String × String) :=
  if resolved_keys = [] then [] else collect_headers req resolved_keys

/-- Registration-time resolution composed with the per-request echo
computation (`none` = the registration call raised `ValueError`). -/
def register_response_headers (param : RespHeadersParam) (req : Request) :
    Option (List (String × String)) :=
  (resolve_response_headers_param param).map
    (fun ks => response_headers_fn ks req)

/-- One emitted log line: either `logger.error(msg)` or
`log_with_meta(level, msg, meta)`. -/
inductive LogEvent where
  | error (msg : String)
  | withMeta (level : Int) (msg : String) (meta : List (String × Json))

/-- The configuration state captured by the handler closures inside
`register_exception_handlers` (after header-key validation and log-level
resolution). -/
structure HandlerConfig where
  response_format : ResponseFormat
  log : Bool
  log_traceback : Bool
  log_traceback_unhandled_exception : Bool
  log_request_context : Bool
  log_header_keys : List String
  effective_level : Int
  response_header_keys : List String

/-- Result of a caller-supplied `extra_log_fields` hook invocation:
absent hook, a returned mapping, or a raised exception (`Except.error`). -/
abbrev HookResult := Option (Except Unit (List (String × Json)))

/-- `str(exc.status)` as it appears in the f-string log line.  The exact
rendering differs across Python versions for `(str, Enum)` mixins; the claims
never depend on it, so the member value is used. -/
def ExceptionStatus.pyStr (s : ExceptionStatus) : String :=
  s.value

/-- An entry of the exception-carried `headers` dict is popped by the
defensive cleanup when `k is None or not str(k).strip() or v is None`. -/
def malformed_header_entry : Option String × Option String → Bool
  | (none, _) => true
  | (some _, none) => true
  | (some k, some _) => pyStrip k = ""

/-- The in-place cleanup loop
`for k, v in list(exc_headers.items()): if k is None or not str(k).strip()
or v is None: exc_headers.pop(k, None)` — the dict keeps exactly the
well-formed entries, in order. -/
def cleanup_exc_headers (h : ExcHeaders) : ExcHeaders :=
  h.filter (fun p => ! malformed_header_entry p)

/-- `base_headers.update({str(k): str(v) for k, v in exc_headers.items()})`
applied after the cleanup (every remaining key/value is a string). -/
def merge_exc_headers (base : List (String × String)) (h : ExcHeaders) :
    List (String × String) :=
  dupdate base ((cleanup_exc_headers h).map
    (fun p => (p.1.getD "", p.2.getD "")))

/-- What `api_exception_handler` produces: its log lines, the `JSONResponse`
parts, and the (possibly mutated) exception after handling. -/
structure ApiHandlerResult where
  logs : List LogEvent
  status_code : Int
  content : Json
  media_type : String
  resp_headers : List (String × String)
  exc_after : APIException

/-- The `meta` dict built by `api_exception_handler` and the `logger.error`
lines it interleaves, mirroring the source block by block.
`frame_filename`/`frame_lineno` are the environment-supplied raise frame
(`traceback.extract_stack()[-3]`); `tb` is `traceback.format_exc()`. -/
def api_exception_log_block (cfg : HandlerConfig) (request : Request)
    (frame_filename : String) (frame_lineno : Int) (tb : String)
    (hook : HookResult) (exc : APIException) : List LogEvent :=
  let meta0 : List (String × Json) :=
    [("event", Json.str "api_exception"),
     ("path", Json.str request.path),
     ("method", Json.str request.method),
     ("client_ip", Json.str ((request.client_ip).getD "unknown")),
     ("http_version", jsonOfOpt request.http_version),
     ("error_code", Json.str exc.error_code),
     ("status", Json.str exc.status.value),
     ("http_status", Json.num exc.http_status_code)]
  let ctx :=
    if cfg.log_request_context then
      let meta1 := dupdate meta0
        ((collect_headers request cfg.log_header_keys).map
          (fun p => (p.1, Json.str p.2)))
      let withFrame :=
        if cfg.log_traceback then
          ([LogEvent.error ("Exception Raised in " ++ frame_filename ++
              ", line " ++ toString frame_lineno)],
           dupdate meta1 [("raise_file", Json.str frame_filename),
                          ("raise_line", Json.num frame_lineno)])
        else ([], meta1)
      (withFrame.1 ++
        [LogEvent.error ("Code: " ++ exc.error_code ++ ", Status: " ++
          exc.status.pyStr ++ ", Description: " ++ exc.description)],
       dupdate withFrame.2
         [("error_code", Json.str exc.error_code),
          ("err_message", Json.str exc.message),
          ("status", Json.str exc.status.value),
          ("description", Json.str exc.description)])
    else ([], meta0)
  let metaLm :=
    match exc.log_message with
    | some (.ofDict d) => dset ctx.2 "extra_log_message" (Json.obj d)
    | some (.ofStr s) => dset ctx.2 "extra_log_message" (Json.str s)
    | none => ctx.2
  let lmLogs : List LogEvent := []
  let metaHook :=
    match hook with
    | some (.ok d) => dupdate metaLm d
    | some (.error _) => metaLm
    | none => metaLm
  if cfg.log_traceback ∧ cfg.effective_level ≤ 10 then
    ctx.1 ++ lmLogs ++
      [LogEvent.withMeta 40 ("APIException: " ++ exc.message) metaHook,
       LogEvent.error ("Traceback:\n" ++ tb)]
  else
    ctx.1 ++ lmLogs ++
      [LogEvent.withMeta 40 ("APIException: " ++ exc.message) metaHook]

/-- `api_exception_handler(request, exc)` from `register_exception_handlers`.
Logging happens only under `if log and getattr(exc, "log_exception", True)
is True`; the body is serialized per the selected format; echo headers are
merged with the exception's own headers (whose dict is cleaned up in place,
so the returned exception carries the filtered dict). -/
def api_exception_handler (cfg : HandlerConfig) (request : Request)
    (frame_filename : String) (frame_lineno : Int) (tb : String)
    (hook : HookResult) (exc : APIException) : ApiHandlerResult :=
  let logs :=
    if cfg.log ∧ exc.log_exception then
      api_exception_log_block cfg request frame_filename frame_lineno tb
        hook exc
    else []
  let fmt :=
    if cfg.response_format = ResponseFormat.RESPONSE_MODEL then
      ((exc.to_response_model none).dump, "application/json")
    else if cfg.response_format = ResponseFormat.RFC7807 then
      ((exc.to_rfc7807_response).dump, "application/problem+json")
    else (Json.obj exc.to_response, "application/json")
  let base := response_headers_fn cfg.response_header_keys request
  { logs := logs
    status_code := exc.http_status_code
    content := fmt.1
    media_type := fmt.2
    resp_headers := merge_exc_headers base exc.headers
    exc_after := { exc with headers := cleanup_exc_headers exc.headers } }

/-- Python `s.startswith(pat)` on character lists. -/
def startsWithL : List Char → List Char → Bool
  | _, [] => true
  | [], _ :: _ => false
  | c :: t, p :: pt => c = p && startsWithL t pt

/-- Python `s.startswith(pat)`. -/
def pyStartsWith (s pat : String) : Bool :=
  startsWithL s.data pat.data

/-- Fuel-indexed worker for Python `str.replace`: scan left to right and
replace every non-overlapping occurrence of `pat` (nonempty) by `repl`. -/
def replaceAllAux : Nat → List Char → List Char → List Char → List Char
  | 0, s, _, _ => s
  | Nat.succ n, s, pat, repl =>
    match s with
    | [] => []
    | c :: t =>
      if pat ≠ [] ∧ startsWithL s pat then
        repl ++ replaceAllAux n (s.drop pat.length) pat repl
      else c :: replaceAllAux n t pat repl

/-- Python `s.replace(pat, repl)` for a nonempty `pat`. -/
def pyReplace (s pat repl : String) : String :=
  ⟨replaceAllAux s.data.length s.data pat.data repl.data⟩

/-- One entry of `RequestValidationError.errors()`: a dict whose `"msg"`
value may be absent or may be a non-string. -/
structure ValidationErr where
  msg : Option Json

/-- The message cleanup at the top of `validation_exception_handler`:
`raw = exc.errors()[0].get("msg", "Validation error")`,
`msg = raw.replace("Value error, ", "") if raw.startswith("Value error, ")
else raw`, with the whole block wrapped in `try/except` falling back to
`"Validation error"` (empty error list → `IndexError`; non-string `msg`
→ `AttributeError` on `startswith`). -/
def first_error_msg (errors : List ValidationErr) : String :=
  match errors with
  | [] => "Validation error"
  | e :: _ =>
    match e.msg with
    | some (Json.str raw) =>
      if pyStartsWith raw "Value error, " then pyReplace raw "Value error, " ""
      else raw
    | some _ => "Validation error"
    | none =>
      let raw := "Validation error"
      if pyStartsWith raw "Value error, " then pyReplace raw "Value error, " ""
      else raw

/-- What `validation_exception_handler` / `fallback_exception_middleware`
produce (no exception mutation is observable for these: a
`RequestValidationError` has no `headers` dict). -/
structure PlainHandlerResult where
  logs : List LogEvent
  status_code : Int
  content : Json
  media_type : String
  resp_headers : List (String × String)

/-- The `meta` dict and log emission of `validation_exception_handler`
(always at WARNING level; traceback text appended to the message when
`log_traceback` and debug verbosity). -/
def validation_log_block (cfg : HandlerConfig) (request : Request)
    (tb : String) (hook : HookResult) (errors : List ValidationErr)
    (msg : String) : List LogEvent :=
  let meta0 : List (String × Json) :=
    [("event", Json.str "validation_error"),
     ("path", Json.str request.path),
     ("method", Json.str request.method),
     ("client_ip", Json.str ((request.client_ip).getD "unknown")),
     ("http_version", jsonOfOpt request.http_version),
     ("error_count", Json.num (Int.ofNat errors.length)),
     ("first_error", Json.str msg)]
  let meta1 :=
    if cfg.log_request_context then
      dupdate meta0
        ((collect_headers request cfg.log_header_keys).map
          (fun p => (p.1, Json.str p.2)))
    else meta0
  let meta2 :=
    match hook with
    | some (.ok d) => dupdate meta1 d
    | some (.error _) => meta1
    | none => meta1
  if cfg.log_traceback ∧ cfg.effective_level ≤ 10 then
    [LogEvent.withMeta 30
      ("Validation Error: " ++ msg ++ "\nTraceback:\n" ++ tb) meta2]
  else
    [LogEvent.withMeta 30 ("Validation Error: " ++ msg) meta2]

/-- `validation_exception_handler(request, exc)`: extract and clean the first
error message, log (when the global switch is on), and answer HTTP 422 with
the `VALIDATION_ERROR` descriptor; `description = msg or err.description`
(an empty extracted message is falsy). -/
def validation_exception_handler (cfg : HandlerConfig) (request : Request)
    (tb : String) (hook : HookResult) (errors : List ValidationErr) :
    PlainHandlerResult :=
  let msg := first_error_msg errors
  let logs :=
    if cfg.log then validation_log_block cfg request tb hook errors msg
    else []
  let err := ExceptionCode.VALIDATION_ERROR
  let description := if msg = "" then err.description else msg
  let fmt :=
    if cfg.response_format = ResponseFormat.RFC7807 then
      (RFC7807ResponseModel.dump
        { title := err.message
          status := 422
          detail := some description
          type := some err.rfc7807_type
          instance_ := some err.rfc7807_instance },
       "application/problem+json")
    else if cfg.response_format = ResponseFormat.RESPONSE_MODEL then
      (ResponseModel.dump
        { data := none
          status := ExceptionStatus.FAIL
          message := err.message
          error_code := some err.error_code
          description := some description },
       "application/json")
    else
      (Json.obj
        [("data", Json.null),
         ("status", Json.str ExceptionStatus.FAIL.value),
         ("message", Json.str err.message),
         ("error_code", Json.str err.error_code),
         ("description", Json.str description)],
       "application/json")
  { logs := logs
    status_code := 422
    content := fmt.1
    media_type := fmt.2
    resp_headers := response_headers_fn cfg.response_header_keys request }

/-- A generic escaped exception as seen by the fallback middleware:
its type name, `str(e)`, `e.args`, and an optional `headers` dict
(`getattr(e, "headers", None)`). -/
structure PyExc where
  type_name : String
  message : String
  args : List Json
  headers : Option ExcHeaders

/-- The `meta` dict and log emission of `fallback_exception_middleware`. -/
def fallback_log_block (cfg : HandlerConfig) (request : Request)
    (tb : String) (hook : HookResult) (e : PyExc) : List LogEvent :=
  let meta0 : List (String × Json) :=
    [("event", Json.str "unhandled_exception"),
     ("path", Json.str request.path),
     ("method", Json.str request.method),
     ("client_ip", Json.str ((request.client_ip).getD "unknown")),
     ("http_version", jsonOfOpt request.http_version),
     ("exception_type", Json.str e.type_name),
     ("exception_args", Json.arr e.args)]
  let meta1 :=
    if cfg.log_request_context then
      dupdate meta0
        ((collect_headers request cfg.log_header_keys).map
          (fun p => (p.1, Json.str p.2)))
    else meta0
  let meta2 :=
    match hook with
    | some (.ok d) => dupdate meta1 d
    | some (.error _) => meta1
    | none => meta1
  if cfg.log_traceback_unhandled_exception then
    [LogEvent.withMeta 40
      ("Unhandled Exception: " ++ e.message ++ "\nTraceback:\n" ++ tb) meta2]
  else
    [LogEvent.withMeta 40 ("Unhandled Exception: " ++ e.message) meta2]

/-- The response-building tail of `fallback_exception_middleware`, reached
when `call_next(request)` raised `e`: synthesize `INTERNAL_SERVER_ERROR`,
force status 500, merge echo/exception headers. -/
def fallback_exception_middleware (cfg : HandlerConfig) (request : Request)
    (tb : String) (hook : HookResult) (e : PyExc) : PlainHandlerResult :=
  let logs :=
    if cfg.log then fallback_log_block cfg request tb hook e else []
  let err := ExceptionCode.INTERNAL_SERVER_ERROR
  let fmt :=
    if cfg.response_format = ResponseFormat.RFC7807 then
      (RFC7807ResponseModel.dump
        { title := err.message
          status := 500
          detail := some err.description
          type := some err.rfc7807_type
          instance_ := some err.rfc7807_instance },
       "application/problem+json")
    else if cfg.response_format = ResponseFormat.RESPONSE_MODEL then
      (ResponseModel.dump
        { data := none
          status := ExceptionStatus.FAIL
          message := err.message
          error_code := some err.error_code
          description := some err.description },
       "application/json")
    else
      (Json.obj
        [("data", Json.null),
         ("status", Json.str ExceptionStatus.FAIL.value),
         ("message", Json.str err.message),
         ("error_code", Json.str err.error_code),
         ("description", Json.str err.description)],
       "application/json")
  let base := response_headers_fn cfg.response_header_keys request
  let merged :=
    match e.headers with
    | some h => merge_exc_headers base h
    | none => base
  { logs := logs
    status_code := 500
    content := fmt.1
    media_type := fmt.2
    resp_headers := merged }

/-- `"data" / "status" / ... in example` key test on a JSON object. -/
def has_key (kvs : List (String × Json)) (k : String) : Bool :=
  (dget kvs k).isSome

/-- The innermost step of the `openapi()` patch: if the media-type example is
a dict containing `status`, `message`, `description` and `error_code` but no
`data`, set `example["data"] = None` (appended, as for a new dict key). -/
def patch_example : Json → Json
  | Json.obj kvs =>
    if has_key kvs "status" && has_key kvs "message" &&
        has_key kvs "description" && has_key kvs "error_code" &&
        !has_key kvs "data" then
      Json.obj (kvs ++ [("data", Json.null)])
    else Json.obj kvs
  | e => e

/-- Patch one media-type entry (`content_v`): fetch `content_v.get("example")`
and patch it in place when present. -/
def patch_content_entry : Json → Json
  | Json.obj kvs =>
    match dget kvs "example" with
    | some ex => Json.obj (dset kvs "example" (patch_example ex))
    | none => Json.obj kvs
  | x => x

/-- Patch one response entry: `if response_k == "200": continue`, else walk
`response_v.get("content") or {}` and patch every media-type entry.
(A falsy or non-dict `content` leaves the entry unchanged.) -/
def patch_response (rk : String) (rv : Json) : Json :=
  if rk = "200" then rv
  else
    match rv with
    | Json.obj kvs =>
      match dget kvs "content" with
      | some (Json.obj cs) =>
        Json.obj (dset kvs "content"
          (Json.obj (cs.map (fun p => (p.1, patch_content_entry p.2)))))
      | some _ => Json.obj kvs
      | none => Json.obj kvs
    | x => x

/-- Patch one operation (`method_v`): `if "responses" in method_v`, walk its
responses keyed by status-code string. -/
def patch_method : Json → Json
  | Json.obj kvs =>
    match dget kvs "responses" with
    | some (Json.obj rs) =>
      Json.obj (dset kvs "responses"
        (Json.obj (rs.map (fun p => (p.1, patch_response p.1 p.2)))))
    | some _ => Json.obj kvs
    | none => Json.obj kvs
  | x => x

/-- Patch one path item (`path_v or {}`): walk every operation. -/
def patch_path : Json → Json
  | Json.obj ms => Json.obj (ms.map (fun p => (p.1, patch_method p.2)))
  | x => x

/-- The full traversal of `openapi()` over `schema.get("paths") or {}`
(the memoization in `app.openapi_schema` caches the result; the traversal
itself is this function). -/
def patch_schema (schema : Json) : Json :=
  match schema with
  | Json.obj kvs =>
    match dget kvs "paths" with
    | some (Json.obj ps) =>
      Json.obj (dset kvs "paths"
        (Json.obj (ps.map (fun p => (p.1, patch_path p.2)))))
    | some _ => Json.obj kvs
    | none => Json.obj kvs
  | x => x

/-- C1: an `APIException`'s `http_status_code` equals the default-map entry
for its severity exactly when the passed status is falsy (0), with fallback
400 when the severity is absent from the map; a truthy explicit value is kept
unchanged, including after a `set_default_http_codes` override. -/
theorem c1_http_status_defaulting
    (new_map : List (ExceptionStatus × Int)) (d : BaseExceptionCode)
    (h : Int) (s : ExceptionStatus) (msg desc : Option String) (le : Bool)
    (lm : Option LogMessage) (hd : Option ExcHeaders) :
    (h ≠ 0 →
      (APIException.init (set_default_http_codes DEFAULT_HTTP_CODES new_map)
        d h s msg desc le lm hd).http_status_code = h)
    ∧ (h = 0 →
      (APIException.init (set_default_http_codes DEFAULT_HTTP_CODES new_map)
        d h s msg desc le lm hd).http_status_code
        = (dget (set_default_http_codes DEFAULT_HTTP_CODES new_map) s).getD 400)
    ∧ (∀ m : List (ExceptionStatus × Int), dget m s = none →
      (APIException.init m d 0 s msg desc le lm hd).http_status_code = 400) := by
  refine ⟨fun h0 => ?_, fun h0 => ?_, fun m hm => ?_⟩
  · simp [APIException.init, h0]
  · simp [APIException.init, h0]
  · simp [APIException.init, hm]

/-- Witness for C1: status 403 with an overridden WARNING entry stays 403. -/
theorem c1_http_status_defaulting_witness :
    (APIException.init
      (set_default_http_codes DEFAULT_HTTP_CODES [(ExceptionStatus.WARNING, 422)])
      ExceptionCode.AUTH_LOGIN_FAILED 403 ExceptionStatus.WARNING
      none none true none none).http_status_code = 403 :=
  (c1_http_status_defaulting [(ExceptionStatus.WARNING, 422)]
    ExceptionCode.AUTH_LOGIN_FAILED 403 ExceptionStatus.WARNING
    none none true none none).1 (by decide)

/-- C2: for one `APIException`, the STANDARD (`to_response_model`), PROBLEM
(`to_rfc7807_response`) and RAW (`to_response`) formats agree on
`error_code`, message content and description content under their respective
key names; `title` is the exception's `message` and `detail` its
`description` — the fields are read off the same instance state, not
recomputed. -/
theorem c2_format_agreement (e : APIException) (data : Option Json) :
    (e.to_response_model data).error_code = some e.error_code
    ∧ (e.to_response_model data).message = e.message
    ∧ (e.to_response_model data).description = some e.description
    ∧ (e.to_rfc7807_response).title = e.message
    ∧ (e.to_rfc7807_response).detail = some e.description
    ∧ dget e.to_response "error_code" = some (Json.str e.error_code)
    ∧ dget e.to_response "message" = some (Json.str e.message)
    ∧ dget e.to_response "description" = some (Json.str e.description)
    ∧ (e.to_rfc7807_response).title = (e.to_response_model data).message
    ∧ (e.to_rfc7807_response).detail = (e.to_response_model data).description := by
  refine ⟨rfl, rfl, rfl, rfl, rfl, ?_, ?_, ?_, rfl, rfl⟩ <;>
    simp [APIException.to_response, dget]

/-- C9: a descriptor is 2–5 positional values with accessors returning, in
order, code / message / description / problem-type / problem-instance (empty
string when omitted), and an exception built with no overrides copies the
descriptor's message, description and code. -/
theorem c9_descriptor_accessors (v : List String) (h2 : 2 ≤ v.length)
    (h5 : v.length ≤ 5) (cm : List (ExceptionStatus × Int)) :
    (APIException.init cm ⟨v⟩ 400 .FAIL none none true none none).message
        = BaseExceptionCode.message ⟨v⟩
    ∧ (APIException.init cm ⟨v⟩ 400 .FAIL none none true none none).description
        = BaseExceptionCode.description ⟨v⟩
    ∧ (APIException.init cm ⟨v⟩ 400 .FAIL none none true none none).error_code
        = BaseExceptionCode.error_code ⟨v⟩
    ∧ BaseExceptionCode.error_code ⟨v⟩ = v.getD 0 ""
    ∧ BaseExceptionCode.message ⟨v⟩ = v.getD 1 ""
    ∧ BaseExceptionCode.description ⟨v⟩ = v.getD 2 ""
    ∧ BaseExceptionCode.rfc7807_type ⟨v⟩ = v.getD 3 ""
    ∧ BaseExceptionCode.rfc7807_instance ⟨v⟩ = v.getD 4 ""
    ∧ (v.length = 2 → BaseExceptionCode.description ⟨v⟩ = ""
        ∧ BaseExceptionCode.rfc7807_type ⟨v⟩ = ""
        ∧ BaseExceptionCode.rfc7807_instance ⟨v⟩ = "") := by
  refine ⟨rfl, rfl, rfl, rfl, rfl, rfl, rfl, rfl, fun hlen => ?_⟩
  obtain ⟨a, b, rfl⟩ := List.length_eq_two.mp hlen
  exact ⟨rfl, rfl, rfl⟩

/-- Witness for C9 at the two-value descriptor `("USR-404", "User not found.")`. -/
theorem c9_descriptor_accessors_witness :
    (APIException.init [] ⟨["USR-404", "User not found."]⟩ 400 .FAIL
      none none true none none).message = "User not found." :=
  ((c9_descriptor_accessors ["USR-404", "User not found."]
    (by decide) (by decide) []).1).trans rfl

/-- C10: an explicitly passed empty string for `message`/`description` is
kept as-is (the descriptor value is substituted only for `None`), while for
`http_status_code` the falsy value 0 triggers the default-map lookup. -/
theorem c10_empty_string_preserved (cm : List (ExceptionStatus × Int))
    (d : BaseExceptionCode) (s : ExceptionStatus) :
    (APIException.init cm d 400 s (some "") (some "") true none none).message = ""
    ∧ (APIException.init cm d 400 s (some "") (some "") true none none).description = ""
    ∧ (APIException.init cm d 400 s none none true none none).message = d.message
    ∧ (APIException.init cm d 400 s none none true none none).description = d.description
    ∧ (APIException.init cm d 0 s none none true none none).http_status_code
        = (dget cm s).getD 400 := by
  refine ⟨rfl, rfl, rfl, rfl, ?_⟩
  simp [APIException.init]

theorem dget_dset {K V : Type} [DecidableEq K] (l : List (K × V)) (k q : K)
    (v : V) : dget (dset l k v) q = if k = q then some v else dget l q := by
  induction l with
  | nil => simp [dset, dget]
  | cons p t ih =>
    obtain ⟨pk, pv⟩ := p
    by_cases hpk : pk = k
    · subst hpk
      by_cases hq : pk = q <;> simp [dset, dget, hq]
    · by_cases hq : pk = q
      · subst hq
        have : ¬ k = pk := fun h => hpk h.symm
        simp [dset, dget, hpk, this]
      · simp [dset, dget, hpk, hq, ih]

theorem dset_dset {K V : Type} [DecidableEq K] (l : List (K × V)) (k : K)
    (v v' : V) : dset (dset l k v) k v' = dset l k v' := by
  induction l with
  | nil => simp [dset]
  | cons p t ih =>
    obtain ⟨pk, pv⟩ := p
    by_cases h : pk = k <;> simp [dset, h, ih]

theorem dget_append_of_none {K V : Type} [DecidableEq K] (l : List (K × V))
    (k : K) (v : V) (h : dget l k = none) : dget (l ++ [(k, v)]) k = some v := by
  induction l with
  | nil => simp [dget]
  | cons p t ih =>
    obtain ⟨pk, pv⟩ := p
    by_cases hp : pk = k
    · simp [dget, hp] at h
    · simp [dget, hp] at h ⊢
      exact ih h

theorem dget_collect_aux (req : Request) (keys : List String)
    (acc : List (String × String)) (k : String) :
    dget (keys.foldl (fun out k' =>
      match dget req.headers k' with
      | some v => if v ≠ "" then dset out k' v else out
      | none => out) acc) k
    = match dget req.headers k with
      | some v => if k ∈ keys ∧ v ≠ "" then some v else dget acc k
      | none => dget acc k := by
  induction keys generalizing acc with
  | nil => cases hh : dget req.headers k <;> simp
  | cons k0 ks ih =>
    rw [List.foldl_cons, ih]
    by_cases hk : k = k0
    · subst hk
      cases hh : dget req.headers k with
      | none => simp [hh]
      | some v0 =>
        by_cases hv : v0 = ""
        · subst hv
          simp [hh]
        · simp [hh, hv, dget_dset]
    · have hstep : dget ((fun out k' =>
          match dget req.headers k' with
          | some v => if v ≠ "" then dset out k' v else out
          | none => out) acc k0) k = dget acc k := by
        cases hh0 : dget req.headers k0 with
        | none => simp [hh0]
        | some v0 =>
          by_cases hv : v0 = "" <;> simp [hh0, hv, dget_dset, Ne.symm hk]
      rw [hstep]
      cases hh : dget req.headers k <;> simp [hk]

theorem dget_collect_headers (req : Request) (keys : List String)
    (k v : String) :
    dget (collect_headers req keys) k = some v ↔
      k ∈ keys ∧ dget req.headers k = some v ∧ v ≠ "" := by
  unfold collect_headers
  rw [dget_collect_aux]
  cases hh : dget req.headers k with
  | none => simp [dget, hh]
  | some w =>
    by_cases hm : k ∈ keys
    · by_cases hw : w = ""
      · subst hw
        simp [dget, hm, hh]
        exact fun h => h.symm
      · simp [hm, hw, hh]
        exact fun h => h ▸ hw
    · simp [dget, hm]

/-- C6: the response-header echo configuration resolves as: `True` yields
exactly the default triple (x-request-id, x-correlation-id, x-amzn-trace-id);
`False` or absent yields no echoed headers for any request; an explicit list
resolves to its normalized names and echoes exactly the listed headers that
are present (nonempty) on the request, and no others. -/
theorem c6_header_echo (req : Request) :
    register_response_headers (.ofBool true) req
      = some (collect_headers req
          ["x-request-id", "x-correlation-id", "x-amzn-trace-id"])
    ∧ (∀ k v,
        dget ((register_response_headers (.ofBool true) req).getD []) k = some v
          ↔ (k ∈ ["x-request-id", "x-correlation-id", "x-amzn-trace-id"]
              ∧ dget req.headers k = some v ∧ v ≠ ""))
    ∧ register_response_headers (.ofBool false) req = some []
    ∧ register_response_headers .noneV req = some []
    ∧ (∀ l ks, resolve_response_headers_param (.ofList l) = some ks →
        (ks = if l = [] then [] else l.map pyNormKey)
        ∧ ∀ k v,
            dget ((register_response_headers (.ofList l) req).getD []) k = some v
              ↔ (k ∈ ks ∧ dget req.headers k = some v ∧ v ≠ "")) := by
  refine ⟨?_, ?_, ?_, ?_, ?_⟩
  · simp [register_response_headers, resolve_response_headers_param,
      response_headers_fn]
  · intro k v
    rw [show (register_response_headers (.ofBool true) req).getD []
        = collect_headers req
            ["x-request-id", "x-correlation-id", "x-amzn-trace-id"] by
      simp [register_response_headers, resolve_response_headers_param,
        response_headers_fn]]
    exact dget_collect_headers req _ k v
  · simp [register_response_headers, resolve_response_headers_param,
      response_headers_fn]
  · simp [register_response_headers, resolve_response_headers_param,
      response_headers_fn]
  · intro l ks hres
    by_cases hl : l = []
    · subst hl
      simp [resolve_response_headers_param] at hres
      subst hres
      refine ⟨by simp, fun k v => ?_⟩
      simp [register_response_headers, resolve_response_headers_param,
        response_headers_fn, dget]
    · have hval : validate_header_keys l = some ks := by
        simpa [resolve_response_headers_param, hl] using hres
      have hks : ks = l.map pyNormKey := by
        unfold validate_header_keys at hval
        split at hval
        · exact (Option.some.inj hval).symm
        · simp at hval
      refine ⟨by simp [hl, hks], fun k v => ?_⟩
      have hreg : (register_response_headers (.ofList l) req).getD []
          = response_headers_fn ks req := by
        simp [register_response_headers, resolve_response_headers_param, hl,
          hval]
      rw [hreg]
      by_cases hke : ks = []
      · subst hke
        simp [response_headers_fn, dget]
      · rw [show response_headers_fn ks req = collect_headers req ks by
          simp [response_headers_fn, hke]]
        exact dget_collect_headers req ks k v

/-- Witness for C6: listing `" X-User-Id "` echoes exactly the normalized
`x-user-id` header found on the request. -/
theorem c6_header_echo_witness :
    dget ((register_response_headers (RespHeadersParam.ofList [" X-User-Id "])
      { headers := [("x-user-id", "7"), ("x-request-id", "abc")],
        path := "/p", method := "GET",
        client_ip := none, http_version := none }).getD []) "x-user-id"
      = some "7" :=
  (((c6_header_echo
      { headers := [("x-user-id", "7"), ("x-request-id", "abc")],
        path := "/p", method := "GET",
        client_ip := none, http_version := none }).2.2.2.2
    [" X-User-Id "] ["x-user-id"] (by decide)).2 "x-user-id" "7").mpr
    ⟨by decide, by decide, by decide⟩

/-- C8: `api_exception_handler` emits log output iff the pipeline's global
`log` switch is enabled AND the exception's `log_exception` flag is true;
with the global switch off, nothing is logged regardless of the per-instance
flag. -/
theorem c8_log_gating (cfg : HandlerConfig) (request : Request)
    (ff : String) (fl : Int) (tb : String) (hook : HookResult)
    (exc : APIException) :
    (api_exception_handler cfg request ff fl tb hook exc).logs ≠ []
      ↔ (cfg.log = true ∧ exc.log_exception = true) := by
  have hblock : api_exception_log_block cfg request ff fl tb hook exc ≠ [] := by
    unfold api_exception_log_block
    by_cases hc : cfg.log_traceback ∧ cfg.effective_level ≤ 10 <;>
      simp [hc]
  constructor
  · intro hne
    by_cases hc : cfg.log = true ∧ exc.log_exception = true
    · exact hc
    · exfalso
      apply hne
      simp only [api_exception_handler]
      rw [if_neg]
      exact fun hcc => hc ⟨hcc.1, hcc.2⟩
  · intro hc
    simp only [api_exception_handler]
    rw [if_pos ⟨hc.1, hc.2⟩]
    exact hblock

/-- C7 (amended): handling a `DomainException` leaves every field of the
exception unchanged provided its `headers` dict contains no malformed entry
(no `None` key, no blank key, no `None` value).  When a malformed entry is
present, the defensive merge cleanup pops it from the exception's own
`headers` dict in place, so the exception is not read-only in general (see
the counterexample). -/
theorem c7_exception_unchanged (cfg : HandlerConfig) (request : Request)
    (ff : String) (fl : Int) (tb : String) (hook : HookResult)
    (exc : APIException)
    (h : ∀ p ∈ exc.headers, malformed_header_entry p = false) :
    (api_exception_handler cfg request ff fl tb hook exc).exc_after = exc := by
  have hclean : cleanup_exc_headers exc.headers = exc.headers := by
    unfold cleanup_exc_headers
    apply List.filter_eq_self.mpr
    intro p hp
    simp [h p hp]
  show { exc with headers := cleanup_exc_headers exc.headers } = exc
  rw [hclean]

/-- Counterexample to C7 as stated: an exception carrying the malformed
header entry `{"": "x"}` comes out of the handler with that entry popped
from its own `headers` dict, so the exception instance is mutated. -/
theorem c7_counterexample :
    (api_exception_handler
      { response_format := .RESPONSE_MODEL, log := false,
        log_traceback := true, log_traceback_unhandled_exception := true,
        log_request_context := true, log_header_keys := [],
        effective_level := 20, response_header_keys := [] }
      { headers := [], path := "/p", method := "GET",
        client_ip := none, http_version := none }
      "app.py" 1 "tb" none
      (APIException.init DEFAULT_HTTP_CODES ExceptionCode.AUTH_LOGIN_FAILED
        400 .FAIL none none true none
        (some [(some "", some "x")]))).exc_after
    ≠ APIException.init DEFAULT_HTTP_CODES ExceptionCode.AUTH_LOGIN_FAILED
        400 .FAIL none none true none
        (some [(some "", some "x")]) :=
  fun h => absurd (congrArg APIException.headers h) (by decide)

/-- Witness for the amended C7 at an exception with one well-formed header. -/
theorem c7_exception_unchanged_witness :
    (api_exception_handler
      { response_format := .RESPONSE_MODEL, log := false,
        log_traceback := true, log_traceback_unhandled_exception := true,
        log_request_context := true, log_header_keys := [],
        effective_level := 20, response_header_keys := [] }
      { headers := [], path := "/p", method := "GET",
        client_ip := none, http_version := none }
      "app.py" 1 "tb" none
      (APIException.init DEFAULT_HTTP_CODES ExceptionCode.AUTH_LOGIN_FAILED
        400 .FAIL none none true none
        (some [(some "x-retry", some "1")]))).exc_after
    = APIException.init DEFAULT_HTTP_CODES ExceptionCode.AUTH_LOGIN_FAILED
        400 .FAIL none none true none
        (some [(some "x-retry", some "1")]) :=
  c7_exception_unchanged _ _ _ _ _ _ _ (by decide)

/-- C3: whatever exception escapes into the fallback middleware, the response
has status 500 and a body built solely from the fixed `INTERNAL_SERVER_ERROR`
descriptor (code ISE-500, its message/description, severity FAIL in the
STANDARD/RAW shapes): the body is independent of the original exception and
of the formatted traceback, so it can never contain their text. -/
theorem c3_fallback_response (cfg : HandlerConfig) (request : Request)
    (tb tb' : String) (hook : HookResult) (e e' : PyExc) :
    (fallback_exception_middleware cfg request tb hook e).status_code = 500
    ∧ (fallback_exception_middleware cfg request tb hook e).content
        = (fallback_exception_middleware cfg request tb' hook e').content
    ∧ (cfg.response_format = .RESPONSE_MODEL →
        (fallback_exception_middleware cfg request tb hook e).content
          = Json.obj [("data", Json.null), ("status", Json.str "FAIL"),
              ("message", Json.str "Internal Server Error"),
              ("error_code", Json.str "ISE-500"),
              ("description", Json.str
                "An unexpected error occurred. Please try again later.")])
    ∧ (cfg.response_format = .RESPONSE_DICTIONARY →
        (fallback_exception_middleware cfg request tb hook e).content
          = Json.obj [("data", Json.null), ("status", Json.str "FAIL"),
              ("message", Json.str "Internal Server Error"),
              ("error_code", Json.str "ISE-500"),
              ("description", Json.str
                "An unexpected error occurred. Please try again later.")])
    ∧ (cfg.response_format = .RFC7807 →
        (fallback_exception_middleware cfg request tb hook e).content
          = Json.obj [("type", Json.str
                "https://example.com/problems/internal-server-error"),
              ("title", Json.str "Internal Server Error"),
              ("status", Json.num 500),
              ("detail", Json.str
                "An unexpected error occurred. Please try again later."),
              ("instance", Json.str "/")]) := by
  refine ⟨rfl, rfl, fun hf => ?_, fun hf => ?_, fun hf => ?_⟩ <;>
    simp [fallback_exception_middleware, hf, ResponseModel.dump,
      RFC7807ResponseModel.dump, jsonOfOpt, ExceptionCode.INTERNAL_SERVER_ERROR,
      BaseExceptionCode.message, BaseExceptionCode.error_code,
      BaseExceptionCode.description, BaseExceptionCode.rfc7807_type,
      BaseExceptionCode.rfc7807_instance, ExceptionStatus.value]

/-- Witness for C3 under the STANDARD format at a concrete escaped error. -/
theorem c3_fallback_response_witness :
    (fallback_exception_middleware
      { response_format := .RESPONSE_MODEL, log := true,
        log_traceback := true, log_traceback_unhandled_exception := true,
        log_request_context := true, log_header_keys := [],
        effective_level := 20, response_header_keys := [] }
      { headers := [], path := "/boom", method := "GET",
        client_ip := none, http_version := none }
      "tb-text" none
      { type_name := "ValueError", message := "secret detail",
        args := [], headers := none }).content
    = Json.obj [("data", Json.null), ("status", Json.str "FAIL"),
        ("message", Json.str "Internal Server Error"),
        ("error_code", Json.str "ISE-500"),
        ("description", Json.str
          "An unexpected error occurred. Please try again later.")] :=
  (c3_fallback_response _ _ "tb-text" "tb-text" none
    { type_name := "ValueError", message := "secret detail",
      args := [], headers := none }
    { type_name := "ValueError", message := "secret detail",
      args := [], headers := none }).2.2.1 rfl

/-- C4 (amended): every intercepted validation failure yields HTTP 422 with
the `VALIDATION_ERROR` descriptor for error_code/type/instance; the
description/detail is the first reported error's message with EVERY
occurrence of `"Value error, "` removed when the message begins with that
prefix (Python `str.replace` replaces all occurrences, not just the prefix),
the message verbatim otherwise, the static `"Validation error"` when
extraction fails, and the descriptor's default description substituted when
the resulting message is empty (`msg or err.description`). -/
theorem c4_validation_normalization (cfg : HandlerConfig) (request : Request)
    (tb : String) (hook : HookResult) (errors : List ValidationErr) :
    (validation_exception_handler cfg request tb hook errors).status_code = 422
    ∧ first_error_msg [] = "Validation error"
    ∧ (∀ raw errs,
        first_error_msg ({ msg := some (Json.str raw) } :: errs)
          = if pyStartsWith raw "Value error, " = true
            then pyReplace raw "Value error, " "" else raw)
    ∧ (cfg.response_format = .RESPONSE_MODEL →
        (validation_exception_handler cfg request tb hook errors).content
          = Json.obj [("data", Json.null), ("status", Json.str "FAIL"),
              ("message", Json.str "Validation Error"),
              ("error_code", Json.str "VAL-422"),
              ("description", Json.str
                (if first_error_msg errors = ""
                 then "Request validation failed. Please check the submitted fields."
                 else first_error_msg errors))])
    ∧ (cfg.response_format = .RESPONSE_DICTIONARY →
        (validation_exception_handler cfg request tb hook errors).content
          = Json.obj [("data", Json.null), ("status", Json.str "FAIL"),
              ("message", Json.str "Validation Error"),
              ("error_code", Json.str "VAL-422"),
              ("description", Json.str
                (if first_error_msg errors = ""
                 then "Request validation failed. Please check the submitted fields."
                 else first_error_msg errors))])
    ∧ (cfg.response_format = .RFC7807 →
        (validation_exception_handler cfg request tb hook errors).content
          = Json.obj [("type", Json.str
                "https://example.com/problems/validation-error"),
              ("title", Json.str "Validation Error"),
              ("status", Json.num 422),
              ("detail", Json.str
                (if first_error_msg errors = ""
                 then "Request validation failed. Please check the submitted fields."
                 else first_error_msg errors)),
              ("instance", Json.str "/")]) := by
  refine ⟨rfl, rfl, fun raw errs => rfl, fun hf => ?_, fun hf => ?_,
    fun hf => ?_⟩ <;>
    simp [validation_exception_handler, hf, ResponseModel.dump,
      RFC7807ResponseModel.dump, jsonOfOpt, ExceptionCode.VALIDATION_ERROR,
      BaseExceptionCode.message, BaseExceptionCode.error_code,
      BaseExceptionCode.description, BaseExceptionCode.rfc7807_type,
      BaseExceptionCode.rfc7807_instance, ExceptionStatus.value]

/-- Counterexample to C4 as stated: for the first message
`"Value error, Value error, x"` the claim predicts the prefix-stripped
description `"Value error, x"`, but the code removes every occurrence and
produces `"x"`. -/
theorem c4_counterexample :
    (validation_exception_handler
      { response_format := .RESPONSE_DICTIONARY, log := false,
        log_traceback := true, log_traceback_unhandled_exception := true,
        log_request_context := true, log_header_keys := [],
        effective_level := 20, response_header_keys := [] }
      { headers := [], path := "/v", method := "POST",
        client_ip := none, http_version := none }
      "tb" none
      [{ msg := some (Json.str "Value error, Value error, x") }]).content
      = Json.obj [("data", Json.null), ("status", Json.str "FAIL"),
          ("message", Json.str "Validation Error"),
          ("error_code", Json.str "VAL-422"),
          ("description", Json.str "x")]
    ∧ ("x" : String) ≠ "Value error, x" :=
  ⟨rfl, by decide⟩

/-- Witness for the amended C4 at a single-prefix message. -/
theorem c4_validation_normalization_witness :
    (validation_exception_handler
      { response_format := .RESPONSE_DICTIONARY, log := false,
        log_traceback := true, log_traceback_unhandled_exception := true,
        log_request_context := true, log_header_keys := [],
        effective_level := 20, response_header_keys := [] }
      { headers := [], path := "/v", method := "POST",
        client_ip := none, http_version := none }
      "tb" none
      [{ msg := some (Json.str "Value error, email must be valid") }]).content
      = Json.obj [("data", Json.null), ("status", Json.str "FAIL"),
          ("message", Json.str "Validation Error"),
          ("error_code", Json.str "VAL-422"),
          ("description", Json.str "email must be valid")] :=
  ((c4_validation_normalization
      { response_format := .RESPONSE_DICTIONARY, log := false,
        log_traceback := true, log_traceback_unhandled_exception := true,
        log_request_context := true, log_header_keys := [],
        effective_level := 20, response_header_keys := [] }
      { headers := [], path := "/v", method := "POST",
        client_ip := none, http_version := none }
      "tb" none
      [{ msg := some (Json.str "Value error, email must be valid") }]
    ).2.2.2.2.1 rfl).trans rfl

theorem has_key_append_data (kvs : List (String × Json))
    (h : dget kvs "data" = none) :
    has_key (kvs ++ [("data", Json.null)]) "data" = true := by
  unfold has_key
  rw [dget_append_of_none kvs "data" Json.null h]
  rfl

theorem patch_example_idem (e : Json) :
    patch_example (patch_example e) = patch_example e := by
  cases e with
  | null => rfl
  | bool b => rfl
  | num n => rfl
  | str s => rfl
  | arr xs => rfl
  | obj kvs =>
    by_cases hc : (has_key kvs "status" && has_key kvs "message" &&
        has_key kvs "description" && has_key kvs "error_code" &&
        !has_key kvs "data") = true
    · have h1 : patch_example (Json.obj kvs)
          = Json.obj (kvs ++ [("data", Json.null)]) := by
        simp [patch_example, hc]
      rw [h1]
      have hnd : dget kvs "data" = none := by
        have h2 := (Bool.and_eq_true _ _).mp hc
        have h3 : (!has_key kvs "data") = true := h2.2
        unfold has_key at h3
        cases hd : dget kvs "data"
        · rfl
        · rw [hd] at h3
          simp at h3
      have hdata := has_key_append_data kvs hnd
      have hcond : (has_key (kvs ++ [("data", Json.null)]) "status" &&
          has_key (kvs ++ [("data", Json.null)]) "message" &&
          has_key (kvs ++ [("data", Json.null)]) "description" &&
          has_key (kvs ++ [("data", Json.null)]) "error_code" &&
          !has_key (kvs ++ [("data", Json.null)]) "data") = false := by
        simp [hdata]
      simp [patch_example, hcond]
    · have h1 : patch_example (Json.obj kvs) = Json.obj kvs := by
        simp [patch_example, hc]
      rw [h1, h1]

theorem patch_content_entry_idem (cv : Json) :
    patch_content_entry (patch_content_entry cv) = patch_content_entry cv := by
  cases cv with
  | null => rfl
  | bool b => rfl
  | num n => rfl
  | str s => rfl
  | arr xs => rfl
  | obj kvs =>
    unfold patch_content_entry
    cases hex : dget kvs "example" with
    | none => simp [hex]
    | some ex =>
      simp only [hex]
      have hh : dget (dset kvs "example" (patch_example ex)) "example"
          = some (patch_example ex) := by
        rw [dget_dset]
        simp
      simp only [hh]
      rw [patch_example_idem, dset_dset]

theorem map_keyed_idem (f : String → Json → Json)
    (hf : ∀ k v, f k (f k v) = f k v) (l : List (String × Json)) :
    (l.map (fun p => (p.1, f p.1 p.2))).map (fun p => (p.1, f p.1 p.2))
      = l.map (fun p => (p.1, f p.1 p.2)) := by
  induction l with
  | nil => rfl
  | cons p t ih => simp [ih, hf]

theorem patch_response_idem (rk : String) (rv : Json) :
    patch_response rk (patch_response rk rv) = patch_response rk rv := by
  by_cases h200 : rk = "200"
  · simp [patch_response, h200]
  · cases rv with
    | null => simp [patch_response, h200]
    | bool b => simp [patch_response, h200]
    | num n => simp [patch_response, h200]
    | str s => simp [patch_response, h200]
    | arr xs => simp [patch_response, h200]
    | obj kvs =>
      unfold patch_response
      rw [if_neg h200, if_neg h200]
      cases hc : dget kvs "content" with
      | none => simp [hc]
      | some c =>
        cases c with
        | obj cs =>
          simp only [hc]
          have hh : dget (dset kvs "content"
              (Json.obj (cs.map (fun p => (p.1, patch_content_entry p.2)))))
              "content"
              = some (Json.obj
                  (cs.map (fun p => (p.1, patch_content_entry p.2)))) := by
            rw [dget_dset]
            simp
          simp only [hh]
          rw [map_keyed_idem (fun _ v => patch_content_entry v)
            (fun _ v => patch_content_entry_idem v) cs, dset_dset]
        | null => simp [hc]
        | bool b => simp [hc]
        | num n => simp [hc]
        | str s => simp [hc]
        | arr xs => simp [hc]

theorem patch_method_idem (mv : Json) :
    patch_method (patch_method mv) = patch_method mv := by
  cases mv with
  | null => rfl
  | bool b => rfl
  | num n => rfl
  | str s => rfl
  | arr xs => rfl
  | obj kvs =>
    unfold patch_method
    cases hr : dget kvs "responses" with
    | none => simp [hr]
    | some r =>
      cases r with
      | obj rs =>
        simp only [hr]
        have hh : dget (dset kvs "responses"
            (Json.obj (rs.map (fun p => (p.1, patch_response p.1 p.2)))))
            "responses"
            = some (Json.obj
                (rs.map (fun p => (p.1, patch_response p.1 p.2)))) := by
          rw [dget_dset]
          simp
        simp only [hh]
        rw [map_keyed_idem patch_response patch_response_idem rs, dset_dset]
      | null => simp [hr]
      | bool b => simp [hr]
      | num n => simp [hr]
      | str s => simp [hr]
      | arr xs => simp [hr]

theorem patch_path_idem (pv : Json) :
    patch_path (patch_path pv) = patch_path pv := by
  cases pv with
  | null => rfl
  | bool b => rfl
  | num n => rfl
  | str s => rfl
  | arr xs => rfl
  | obj ms =>
    simp only [patch_path]
    rw [map_keyed_idem (fun _ v => patch_method v)
      (fun _ v => patch_method_idem v) ms]

theorem patch_schema_idem (s : Json) :
    patch_schema (patch_schema s) = patch_schema s := by
  cases s with
  | null => rfl
  | bool b => rfl
  | num n => rfl
  | str s' => rfl
  | arr xs => rfl
  | obj kvs =>
    unfold patch_schema
    cases hp : dget kvs "paths" with
    | none => simp [hp]
    | some p =>
      cases p with
      | obj ps =>
        simp only [hp]
        have hh : dget (dset kvs "paths"
            (Json.obj (ps.map (fun p => (p.1, patch_path p.2))))) "paths"
            = some (Json.obj (ps.map (fun p => (p.1, patch_path p.2)))) := by
          rw [dget_dset]
          simp
        simp only [hh]
        rw [map_keyed_idem (fun _ v => patch_path v)
          (fun _ v => patch_path_idem v) ps, dset_dset]
      | null => simp [hp]
      | bool b => simp [hp]
      | num n => simp [hp]
      | str s' => simp [hp]
      | arr xs => simp [hp]

/-- C5: the documentation-schema patch injects `data: null` into exactly the
examples that contain `status`, `message`, `description` and `error_code`
but lack `data`; an example already containing `data` is unchanged, a
success-status (`"200"`) response entry is never touched, and reapplying the
whole traversal to a patched schema changes nothing. -/
theorem c5_schema_patch :
    (∀ kvs : List (String × Json),
      (has_key kvs "status" && has_key kvs "message" &&
        has_key kvs "description" && has_key kvs "error_code" &&
        !has_key kvs "data") = true →
      patch_example (Json.obj kvs) = Json.obj (kvs ++ [("data", Json.null)]))
    ∧ (∀ kvs : List (String × Json), has_key kvs "data" = true →
        patch_example (Json.obj kvs) = Json.obj kvs)
    ∧ (∀ kvs : List (String × Json),
        (has_key kvs "status" && has_key kvs "message" &&
          has_key kvs "description" && has_key kvs "error_code" &&
          !has_key kvs "data") = false →
        patch_example (Json.obj kvs) = Json.obj kvs)
    ∧ (∀ rv : Json, patch_response "200" rv = rv)
    ∧ (∀ s : Json, patch_schema (patch_schema s) = patch_schema s) := by
  refine ⟨fun kvs hc => ?_, fun kvs hd => ?_, fun kvs hc => ?_,
    fun rv => ?_, patch_schema_idem⟩
  · simp [patch_example, hc]
  · have : (has_key kvs "status" && has_key kvs "message" &&
        has_key kvs "description" && has_key kvs "error_code" &&
        !has_key kvs "data") = false := by
      simp [hd]
    simp [patch_example, this]
  · simp [patch_example, hc]
  · simp [patch_response]

/-- Witness for C5: a concrete error example gains `data: null`; one that
already has `data` is unchanged. -/
theorem c5_schema_patch_witness :
    patch_example (Json.obj
      [("status", Json.str "FAIL"), ("message", Json.str "m"),
       ("description", Json.str "d"), ("error_code", Json.str "E-1")])
    = Json.obj
      [("status", Json.str "FAIL"), ("message", Json.str "m"),
       ("description", Json.str "d"), ("error_code", Json.str "E-1"),
       ("data", Json.null)] :=
  c5_schema_patch.1
    [("status", Json.str "FAIL"), ("message", Json.str "m"),
     ("description", Json.str "d"), ("error_code", Json.str "E-1")]
    (by decide)
